import Mathlib

/-
Verification development for the 115-cloud client manager
(`plugins.v2/p115strgmsub/clients/p115.py`, class `P115ClientManager`).

The remote API (`P115Client`) is modelled as an oracle supplied through an
environment record.  A remote call either raises (modelled as `Except.error`)
or returns a parsed response (modelled as a structure whose fields are the
dictionary entries the code reads, with `Option` for entries read through
`dict.get` chains).  Machine integers are `Int`/`Nat`; Python string
truthiness on the code paths we model is emptiness of a string, and dict
truthiness of `resp.get("id")` for integer ids is `≠ 0`.

Python's `\d` and `\s` regex classes are modelled over ASCII digits and
whitespace (`Char.isDigit` / `Char.isWhitespace`), and `str.lower()` as
ASCII lowering — the only case-folded needles in the source are ASCII.
-/

namespace P115

/-- Mirrors Python's substring operator `needle in hay` on character lists. -/
def subChars (needle : List Char) : List Char → Bool
  | [] => needle.isEmpty
  | c :: rest => needle.isPrefixOf (c :: rest) || subChars needle rest

/-- Mirrors Python's `needle in hay` on strings. -/
def strContains (hay needle : String) : Bool :=
  subChars needle.data hay.data

/-- ASCII lowering of one character (model of `str.lower()` per character). -/
def asciiLowerChar (c : Char) : Char :=
  if 'A' ≤ c ∧ c ≤ 'Z' then Char.ofNat (c.toNat + 32) else c

/-- Model of `str.lower()` (ASCII; the source only case-folds ASCII needles). -/
def asciiLower (s : String) : String :=
  ⟨s.data.map asciiLowerChar⟩

/-- `DEFAULT_MAX_RETRIES = 3` (p115.py line 180). -/
def DEFAULT_MAX_RETRIES : Nat := 3

/-- Response of `client.share_receive(payload)` as read by `_do_transfer`
(p115.py lines 846-872): the dictionary entries `state`, `error`, `errno`,
`errcode`, with `Option` marking entries accessed via `dict.get` defaults. -/
structure TResp where
  state : Bool
  error : Option String
  errno : Option Int
  errcode : Option Int

/-- The fixed rate-limit error codes of p115.py line 864. -/
def rateLimitCodes : List Int := [990001, 990002, 990009]

/--
Retry loop of `P115ClientManager._do_transfer` (p115.py lines 841-884).

`env attempt` is the outcome of the `share_receive` call issued on that
attempt: `Except.error` models the call raising, `Except.ok` a parsed
response.  The result is `(returned bool, number of API calls issued,
back-off sleep durations in seconds, in order)`.  `fuel` counts the loop
iterations remaining out of `max_retries + 1`; the `fuel = 0` case is the
`return False` after the loop (line 884, unreachable when fuel starts at
`maxRetries + 1`).
-/
def doTransferAux (env : Nat → Except String TResp) (maxRetries : Nat) :
    Nat → Nat → Bool × Nat × List ℚ
  | _, 0 => (false, 0, [])
  | attempt, fuel + 1 =>
    match env attempt with
    | .error _ =>
      -- `except Exception` branch: retry with delay (attempt+1)*1.5 if attempts remain
      if attempt < maxRetries then
        let r := doTransferAux env maxRetries (attempt + 1) fuel
        (r.1, r.2.1 + 1, ((attempt + 1 : ℚ) * (3 / 2)) :: r.2.2)
      else (false, 1, [])
    | .ok resp =>
      if resp.state then (true, 1, [])
      else
        let errorMsg := resp.error.getD "未知错误"
        let errorCode := resp.errno.getD (resp.errcode.getD 0)
        if strContains errorMsg "重复" || strContains errorMsg "已存在" then
          -- duplicate file: treated as success (lines 859-861)
          (true, 1, [])
        else if errorCode ∈ rateLimitCodes ∧ attempt < maxRetries then
          -- rate limited: sleep (attempt+1)*2 and retry (lines 864-869)
          let r := doTransferAux env maxRetries (attempt + 1) fuel
          (r.1, r.2.1 + 1, ((attempt + 1 : ℚ) * 2) :: r.2.2)
        else (false, 1, [])

/-- `P115ClientManager._do_transfer` given the per-attempt remote outcomes. -/
def do_transfer (env : Nat → Except String TResp) (maxRetries : Nat) :
    Bool × Nat × List ℚ :=
  doTransferAux env maxRetries 0 (maxRetries + 1)

lemma doTransferAux_calls_le (env : Nat → Except String TResp) (maxRetries : Nat) :
    ∀ fuel attempt, (doTransferAux env maxRetries attempt fuel).2.1 ≤ fuel := by
  intro fuel
  induction fuel with
  | zero => intro attempt; simp [doTransferAux]
  | succ n ih =>
    intro attempt
    simp only [doTransferAux]
    cases h : env attempt with
    | error e =>
      by_cases hlt : attempt < maxRetries
      · simpa [hlt] using Nat.succ_le_succ (ih (attempt + 1))
      · simp [hlt]
    | ok resp =>
      by_cases hs : resp.state
      · simp [hs]
      · simp only [hs, if_false]
        by_cases hdup : (strContains (resp.error.getD "未知错误") "重复" ||
            strContains (resp.error.getD "未知错误") "已存在") = true
        · simp [hdup]
        · simp only [Bool.not_eq_true] at hdup
          by_cases hrl : resp.errno.getD (resp.errcode.getD 0) ∈ rateLimitCodes ∧
              attempt < maxRetries
          · simpa [hdup, hrl] using Nat.succ_le_succ (ih (attempt + 1))
          · simp [hdup, hrl, Nat.succ_le_succ]

lemma doTransferAux_calls_pos (env : Nat → Except String TResp) (maxRetries : Nat) :
    ∀ fuel attempt, 0 < fuel → 0 < (doTransferAux env maxRetries attempt fuel).2.1 := by
  intro fuel attempt hf
  match fuel, hf with
  | n + 1, _ =>
    simp only [doTransferAux]
    cases h : env attempt with
    | error e =>
      by_cases hlt : attempt < maxRetries
      · simp [hlt]
      · simp [hlt]
    | ok resp =>
      by_cases hs : resp.state
      · simp [hs]
      · simp only [hs, if_false]
        by_cases hdup : (strContains (resp.error.getD "未知错误") "重复" ||
            strContains (resp.error.getD "未知错误") "已存在") = true
        · simp [hdup]
        · simp only [Bool.not_eq_true] at hdup
          by_cases hrl : resp.errno.getD (resp.errcode.getD 0) ∈ rateLimitCodes ∧
              attempt < maxRetries
          · simp [hdup, hrl]
          · simp [hdup, hrl]

lemma doTransferAux_delays (env : Nat → Except String TResp) (maxRetries : Nat) :
    ∀ fuel attempt i, i < (doTransferAux env maxRetries attempt fuel).2.2.length →
      (doTransferAux env maxRetries attempt fuel).2.2.getD i 0 = (attempt + i + 1 : ℚ) * 2 ∨
      (doTransferAux env maxRetries attempt fuel).2.2.getD i 0 = (attempt + i + 1 : ℚ) * (3 / 2) := by
  intro fuel
  induction fuel with
  | zero => intro attempt i hi; simp [doTransferAux] at hi
  | succ n ih =>
    intro attempt i hi
    simp only [doTransferAux] at hi ⊢
    cases h : env attempt with
    | error e =>
      simp only [h] at hi ⊢
      by_cases hlt : attempt < maxRetries
      · simp only [hlt, if_true] at hi ⊢
        cases i with
        | zero =>
          right
          simp only [List.getD_cons_zero]
          push_cast
          ring
        | succ j =>
          simp only [List.length_cons, Nat.succ_lt_succ_iff] at hi
          rcases ih (attempt + 1) j hi with hc | hc
          · left; rw [List.getD_cons_succ, hc]; push_cast; ring
          · right; rw [List.getD_cons_succ, hc]; push_cast; ring
      · simp [hlt] at hi
    | ok resp =>
      simp only [h] at hi ⊢
      by_cases hs : resp.state
      · simp [hs] at hi
      · simp only [hs, if_false] at hi ⊢
        by_cases hdup : (strContains (resp.error.getD "未知错误") "重复" ||
            strContains (resp.error.getD "未知错误") "已存在") = true
        · simp [hdup] at hi
        · simp only [Bool.not_eq_true] at hdup
          simp only [hdup, Bool.false_eq_true, if_false] at hi ⊢
          by_cases hrl : resp.errno.getD (resp.errcode.getD 0) ∈ rateLimitCodes ∧
              attempt < maxRetries
          · simp only [hrl, and_self, if_true] at hi ⊢
            cases i with
            | zero =>
              left
              simp only [List.getD_cons_zero]
              push_cast
              ring
            | succ j =>
              simp only [List.length_cons, Nat.succ_lt_succ_iff] at hi
              rcases ih (attempt + 1) j hi with hc | hc
              · left; rw [List.getD_cons_succ, hc]; push_cast; ring
              · right; rw [List.getD_cons_succ, hc]; push_cast; ring
          · simp [hrl] at hi

/-! ## Path resolution: `P115ClientManager.get_pid_by_path` (lines 257-359) -/

/-- Path normalization of p115.py lines 269-272:
`path.replace("\\", "/")`, enforce a leading `/`, `rstrip("/")`. -/
def normChars (s : List Char) : List Char :=
  let s1 := s.map fun c => if c = '\\' then '/' else c
  let s2 := if s1.head? = some '/' then s1 else '/' :: s1
  (s2.reverse.dropWhile (fun c => c = '/')).reverse

/-- `normChars` packaged on strings. -/
def normalizePath (s : String) : String :=
  ⟨normChars s.data⟩

/-- `[p for p in path.split("/") if p]` (line 300): the maximal slash-free
non-empty runs of the path. -/
def pathParts : List Char → List String
  | [] => []
  | c :: rest =>
    if c = '/' then pathParts rest
    else ⟨c :: rest.takeWhile (fun d => d ≠ '/')⟩ :: pathParts (rest.dropWhile (fun d => d ≠ '/'))
termination_by l => l.length
decreasing_by
  · simp
  · simpa using Nat.lt_succ_of_le (List.dropWhile_sublist _).length_le

/-- Response of `client.fs_makedirs_app(part, pid)` as read on lines 331-353:
`state` (truthiness of `resp.get("state")`), `cid` (`int(resp["cid"])`),
`errno` (`resp.get("errno")`), `error` (`resp.get("error", "")`).
`Except.error` at the call site models the call or `check_response` raising. -/
structure MkResp where
  state : Bool
  cid : Int
  errno : Option Int
  error : String

/--
Environment of one `get_pid_by_path` run.

`cacheGet p` is the result `self.path_cache.get(p)` would return; within a
single sequential run the function never re-reads a key it wrote (the
creation loop only reads strictly longer prefixes than those it has set),
so a pure function is an exact model of the cache reads.  `dirGetid p`
models `client.fs_dir_getid(p)`: `.error` is the call raising, `.ok v`
yields `resp.get("id")` as an integer whose Python truthiness is `v ≠ 0`.
`makedirs part pid` models `client.fs_makedirs_app(part, pid=pid)` followed
by `check_response`.
-/
structure PidEnv where
  hasClient : Bool
  cacheGet : String → Option Int
  dirGetid : String → Except String Int
  makedirs : String → Int → Except String MkResp

/-- Prefix-scan of lines 305-313: walk the cumulative prefixes of `parts`
and remember the last one present in the cache, returning
`(start_index, parent_id, current_path)`. -/
def scanCachedAux (env : PidEnv) : List String → String → Nat → Nat × Int × String → Nat × Int × String
  | [], _, _, best => best
  | part :: rest, tempPath, i, best =>
    let tp := tempPath ++ "/" ++ part
    match env.cacheGet tp with
    | some c => scanCachedAux env rest tp (i + 1) (i + 1, c, tp)
    | none => scanCachedAux env rest tp (i + 1) best

/-- The `start_index`/`parent_id`/`current_path` established by lines 301-313. -/
def scanCached (env : PidEnv) (parts : List String) : Nat × Int × String :=
  scanCachedAux env parts "" 0 (0, 0, "")

/--
Creation loop of lines 316-357.  State: remaining parts, `current_path`,
`parent_id`, API-call count so far.  Every remote interaction is wrapped in
the source's `try`/`except`; a caught exception yields `.ok (-1, _)` (the
method returns the sentinel `-1`), it never propagates.
-/
def mkdirLoop (env : PidEnv) : List String → String → Int → Nat → Except String (Int × Nat)
  | [], _, parentId, cnt => .ok (parentId, cnt)
  | part :: rest, curPath, parentId, cnt =>
    let cur := curPath ++ "/" ++ part
    match env.cacheGet cur with
    | some cached => mkdirLoop env rest cur cached cnt
    | none =>
      match env.makedirs part parentId with
      | .error _ => .ok (-1, cnt + 1)
      | .ok resp =>
        if resp.state then mkdirLoop env rest cur resp.cid (cnt + 1)
        else if resp.errno = some 20004 ∨ strContains resp.error "已存在" then
          match env.dirGetid cur with
          | .error _ => .ok (-1, cnt + 2)
          | .ok gid =>
            if gid ≠ 0 then mkdirLoop env rest cur gid (cnt + 2)
            else .ok (-1, cnt + 2)
        else .ok (-1, cnt + 1)

/--
`P115ClientManager.get_pid_by_path(path, mkdir)` (lines 257-359), returning
`(directory id, number of remote API calls issued)`.  The `Except` return
type records whether an exception escapes the method; every remote call the
source wraps in `try`/`except` is converted to a plain `.ok` value here,
exactly where the source catches it.
-/
def get_pid_by_pathE (env : PidEnv) (path : String) (mkdir : Bool) : Except String (Int × Nat) :=
  if ¬env.hasClient then .ok (-1, 0)
  else
    let p := normalizePath path
    if p = "" ∨ p = "/" then .ok (0, 0)
    else
      match env.cacheGet p with
      | some cid => .ok (cid, 0)
      | none =>
        -- direct full-path lookup, lines 284-293 (exception caught, falls through)
        let firstTry : Option Int :=
          match env.dirGetid p with
          | .error _ => none
          | .ok v => if v ≠ 0 then some v else none
        match firstTry with
        | some cid => .ok (cid, 1)
        | none =>
          if ¬mkdir then .ok (-1, 1)
          else
            let parts := pathParts p.data
            let s := scanCached env parts
            mkdirLoop env (parts.drop s.1) s.2.2 s.2.1 1

/-- `get_pid_by_path` as the plain value the method returns (it never
raises; see `get_pid_by_pathE_isOk`). -/
def get_pid_by_path (env : PidEnv) (path : String) (mkdir : Bool) : Int × Nat :=
  match get_pid_by_pathE env path mkdir with
  | .ok p => p
  | .error _ => (-1, 0)

lemma mkdirLoop_isOk (env : PidEnv) :
    ∀ parts curPath parentId cnt, (mkdirLoop env parts curPath parentId cnt).isOk = true := by
  intro parts
  induction parts with
  | nil => intro curPath parentId cnt; simp [mkdirLoop, Except.isOk, Except.toBool]
  | cons part rest ih =>
    intro curPath parentId cnt
    simp only [mkdirLoop]
    cases hc : env.cacheGet (curPath ++ "/" ++ part) with
    | some cached => exact ih _ _ _
    | none =>
      cases hm : env.makedirs part parentId with
      | error e => simp [Except.isOk, Except.toBool]
      | ok resp =>
        by_cases hs : resp.state
        · simpa [hs] using ih _ _ _
        · simp only [hs, if_false]
          by_cases he : resp.errno = some 20004 ∨ strContains resp.error "已存在"
          · simp only [he, if_true]
            cases hg : env.dirGetid (curPath ++ "/" ++ part) with
            | error e => simp [Except.isOk, Except.toBool]
            | ok gid =>
              by_cases hz : gid ≠ 0
              · simpa [hz] using ih _ _ _
              · simp [hz, Except.isOk, Except.toBool]
          · simp [he, Except.isOk, Except.toBool]

lemma get_pid_by_pathE_isOk (env : PidEnv) (path : String) (mkdir : Bool) :
    (get_pid_by_pathE env path mkdir).isOk = true := by
  simp only [get_pid_by_pathE]
  by_cases hc : ¬env.hasClient
  · simp [hc, Except.isOk, Except.toBool]
  · simp only [hc, if_false]
    by_cases hroot : normalizePath path = "" ∨ normalizePath path = "/"
    · simp [hroot, Except.isOk, Except.toBool]
    · simp only [hroot, if_false]
      cases hcache : env.cacheGet (normalizePath path) with
      | some cid => simp [Except.isOk, Except.toBool]
      | none =>
        cases hg : env.dirGetid (normalizePath path) with
        | error e =>
          by_cases hm : ¬mkdir
          · simp [hm, Except.isOk, Except.toBool]
          · simp [hm, mkdirLoop_isOk]
        | ok v =>
          by_cases hv : v ≠ 0
          · simp [hv, Except.isOk, Except.toBool]
          · simp only [hv, if_false]
            by_cases hm : ¬mkdir
            · simp [hm, Except.isOk, Except.toBool]
            · simp [hm, mkdirLoop_isOk]

/-! ## Batch transfer: `P115ClientManager.transfer_files_batch` (lines 717-808) -/

/-- The chunking performed by `for batch_index in range(0, len(file_ids),
batch_size): batch = file_ids[batch_index:batch_index+batch_size]`
(lines 763-764), for a positive step.  The fuel is the list length; the
`0, l` fuel case is unreachable for a positive chunk size. -/
def chunksOfAux (k : Nat) : Nat → List String → List (List String)
  | _, [] => []
  | 0, l => [l]
  | n + 1, l => l.take k :: chunksOfAux k n (l.drop k)

/-- The batches of size `k` that the loop of lines 763-764 iterates over. -/
def chunksOf (k : Nat) (l : List String) : List (List String) :=
  chunksOfAux k l.length l

/-- One `_do_transfer` outcome drawn from the stream of outcomes: Python's
`_do_transfer` always returns a bool (`do_transfer` above is total), so a
whole batch run is determined by the sequence of bools its successive
`_do_transfer` calls return. -/
def takeResult : List Bool → Bool × List Bool
  | [] => (false, [])
  | b :: rest => (b, rest)

/-- Per-item fallback loop of lines 786-797: transfer each id of the failed
chunk individually, appending to the success or failure list in order.
Returns `(new success ids, new failed ids, remaining outcome stream)`. -/
def perItem (results : List Bool) : List String → List String × List String × List Bool
  | [] => ([], [], results)
  | fid :: rest =>
    let t := takeResult results
    let r := perItem t.2 rest
    if t.1 then (fid :: r.1, r.2.1, r.2.2) else (r.1, fid :: r.2.1, r.2.2)

/-- Chunk loop of lines 763-805: try each chunk as one combined transfer;
on chunk failure fall back to `perItem`. -/
def runBatches : List Bool → List (List String) → List String × List String
  | _, [] => ([], [])
  | results, c :: cs =>
    let t := takeResult results
    if t.1 then
      let r := runBatches t.2 cs
      (c ++ r.1, r.2)
    else
      let p := perItem t.2 c
      let r := runBatches p.2.2 cs
      (p.1 ++ r.1, p.2.1 ++ r.2)

/--
`P115ClientManager.transfer_files_batch` (lines 717-808).

`shareCode`/`receiveCode` are the strings `extract_share_info(share_url)`
yields (both empty on parse failure), `penv`/`savePath` feed the
`get_pid_by_path(save_path, mkdir=True)` destination resolution, and
`results` is the stream of outcomes of the successive `_do_transfer` calls.
`Except.error` models the `ZeroDivisionError` raised at line 759 by
`(len(file_ids) + batch_size - 1) // batch_size` when `batch_size = 0`.
-/
def transfer_files_batchE (penv : PidEnv) (shareCode receiveCode : String)
    (fileIds : List String) (savePath : String) (batchSize : Nat)
    (results : List Bool) : Except String (List String × List String) :=
  if ¬penv.hasClient then .ok ([], fileIds)
  else if fileIds = [] then .ok ([], [])
  else if shareCode = "" ∨ receiveCode = "" then .ok ([], fileIds)
  else if (get_pid_by_path penv savePath true).1 = -1 then .ok ([], fileIds)
  else if batchSize = 0 then .error "ZeroDivisionError: integer division or modulo by zero"
  else .ok (runBatches results (chunksOf batchSize fileIds))

/-- The pair `(success_ids, failed_ids)` the method returns (for a positive
batch size it never raises; see `transfer_files_batchE` for the
`batch_size = 0` exception). -/
def transfer_files_batch (penv : PidEnv) (shareCode receiveCode : String)
    (fileIds : List String) (savePath : String) (batchSize : Nat)
    (results : List Bool) : List String × List String :=
  match transfer_files_batchE penv shareCode receiveCode fileIds savePath batchSize results with
  | .ok p => p
  | .error _ => ([], [])

lemma chunksOfAux_flatten (k : Nat) (hk : 0 < k) :
    ∀ n l, l.length ≤ n → (chunksOfAux k n l).flatten = l := by
  intro n
  induction n with
  | zero =>
    intro l hl
    have hnil : l = [] := List.length_eq_zero.mp (Nat.le_zero.mp hl)
    subst hnil
    simp [chunksOfAux]
  | succ m ih =>
    intro l hl
    cases l with
    | nil => simp [chunksOfAux]
    | cons a as =>
      simp only [chunksOfAux, List.flatten_cons]
      have hdrop : ((a :: as).drop k).length ≤ m := by
        rw [List.length_drop]
        simp only [List.length_cons] at hl ⊢
        omega
      rw [ih _ hdrop, List.take_append_drop]

lemma chunksOf_flatten (k : Nat) (hk : 0 < k) (l : List String) :
    (chunksOf k l).flatten = l :=
  chunksOfAux_flatten k hk l.length l (Nat.le_refl _)

lemma perItem_spec (res : List Bool) (c : List String) :
    List.Perm ((perItem res c).1 ++ (perItem res c).2.1) c ∧
    List.Sublist (perItem res c).1 c ∧ List.Sublist (perItem res c).2.1 c := by
  induction c generalizing res with
  | nil => simp [perItem]
  | cons fid rest ih =>
    simp only [perItem]
    obtain ⟨hperm, hs, hf⟩ := ih (takeResult res).2
    by_cases hb : (takeResult res).1 = true
    · refine ⟨?_, ?_, ?_⟩
      · simpa [hb] using hperm.cons fid
      · simpa [hb] using hs.cons₂ fid
      · simpa [hb] using hf.cons fid
    · refine ⟨?_, ?_, ?_⟩
      · simp only [hb, if_false]
        exact List.perm_middle.trans (hperm.cons fid)
      · simpa [hb] using hs.cons fid
      · simpa [hb] using hf.cons₂ fid

lemma runBatches_spec (cs : List (List String)) :
    ∀ res, List.Perm ((runBatches res cs).1 ++ (runBatches res cs).2) cs.flatten ∧
      List.Sublist (runBatches res cs).1 cs.flatten ∧
      List.Sublist (runBatches res cs).2 cs.flatten := by
  induction cs with
  | nil => intro res; simp [runBatches]
  | cons c rest ih =>
    intro res
    simp only [runBatches, List.flatten_cons]
    by_cases hb : (takeResult res).1 = true
    · obtain ⟨hperm, hs, hf⟩ := ih (takeResult res).2
      refine ⟨?_, ?_, ?_⟩
      · simp only [hb, if_true, List.append_assoc]
        exact (hperm.append_left c)
      · simpa [hb] using (List.Sublist.refl c).append hs
      · simpa [hb] using hf.trans (List.sublist_append_right c _)
    · obtain ⟨hperm, hs, hf⟩ := ih (perItem (takeResult res).2 c).2.2
      obtain ⟨pperm, ps, pf⟩ := perItem_spec (takeResult res).2 c
      refine ⟨?_, ?_, ?_⟩
      · simp only [hb, Bool.false_eq_true, if_false]
        refine List.Perm.trans ?_ (pperm.append hperm)
        refine List.perm_iff_count.mpr fun x => ?_
        simp only [List.count_append]
        omega
      · simpa [hb] using ps.append hs
      · simpa [hb] using pf.append hf

/-! ## Share status: `P115ClientManager.check_share_status` (lines 388-474) -/

/-- Mirror of the dataclass `ShareLinkStatus` (lines 22-51); `share_info`
is `none` for the default empty dict. -/
structure ShareInfoOut where
  share_title : String
  share_state : String
  file_count : Int
  create_time : String
  expire_time : String
  user_name : String
deriving DecidableEq

/-- Mirror of the dataclass `ShareLinkStatus` (lines 22-36). -/
structure ShareLinkStatus where
  is_valid : Bool := false
  is_expired : Bool := false
  is_cancelled : Bool := false
  is_deleted : Bool := false
  error_code : Int := 0
  error_message : String := ""
  file_count : Int := 0
  share_info : Option ShareInfoOut := none
deriving DecidableEq

/-- The `status_text` property (lines 38-51). -/
def ShareLinkStatus.status_text (s : ShareLinkStatus) : String :=
  if s.is_valid then "有效"
  else if s.is_expired then "已过期"
  else if s.is_cancelled then "已取消"
  else if s.is_deleted then "文件已删除"
  else if s.error_message ≠ "" then s.error_message
  else "未知状态"

/-- Response of `client.share_snap(payload)` as read on lines 425-450:
`state` (the `state is True or state == 1` test), the `data` sub-dict
(`count`, length of `list`, the `shareinfo` fields, each already defaulted
as the `dict.get` calls do), and the error fields read through `get`
chains. -/
structure SnapResp where
  state : Bool
  count : Option Int
  listLen : Nat
  shareTitle : String
  shareState : String
  createTime : String
  expireTime : String
  userName : String
  errno : Option Int
  errcode : Option Int
  error : Option String
  message : Option String

/-- Environment of one `check_share_status` run: client presence, the
`extract_share_info(share_url)` output (`share_code`, `receive_code`, both
empty when parsing failed or returned an empty dict), and the
`share_snap` outcome as a function of the codes put in the payload. -/
structure SnapEnv where
  hasClient : Bool
  shareCode : String
  receiveCode : String
  snap : String → String → Except String SnapResp

/-- The expiry keyword test of lines 456-458. -/
def kwExpired (em : String) : Bool :=
  strContains em "过期" || strContains (asciiLower em) "expired"

/-- The cancellation keyword test of lines 460-462. -/
def kwCancelled (em : String) : Bool :=
  strContains em "取消" || strContains (asciiLower em) "cancel"

/-- The deletion keyword test of lines 464-466. -/
def kwDeleted (em : String) : Bool :=
  strContains em "删除" || strContains em "不存在" || strContains (asciiLower em) "delete"

/--
`P115ClientManager.check_share_status` (lines 388-474).  Returns the status
together with the `(share_code, receive_code)` pair passed to the
`share_snap` payload, or `none` when the probe was never issued — the probe
record also serves as the remote-call count (`none` ↔ zero calls).
-/
def check_share_status (env : SnapEnv) : ShareLinkStatus × Option (String × String) :=
  if ¬env.hasClient then ({ error_message := "客户端未初始化" }, none)
  else if env.shareCode = "" then ({ error_message := "无效的分享链接格式" }, none)
  else
    -- payload uses `receive_code or ""` (line 417)
    let rc := if env.receiveCode = "" then "" else env.receiveCode
    match env.snap env.shareCode rc with
    | .error e =>
      ({ error_message := "检查分享状态异常: " ++ e }, some (env.shareCode, rc))
    | .ok resp =>
      if resp.state then
        let fc := resp.count.getD (resp.listLen : Int)
        ({ is_valid := true, error_code := 0, file_count := fc,
           share_info := some { share_title := resp.shareTitle,
                                share_state := resp.shareState,
                                file_count := fc,
                                create_time := resp.createTime,
                                expire_time := resp.expireTime,
                                user_name := resp.userName } },
         some (env.shareCode, rc))
      else
        let ec := resp.errno.getD (resp.errcode.getD (-1))
        let em := resp.error.getD (resp.message.getD "未知错误")
        ({ is_valid := false, error_code := ec, error_message := em,
           is_expired := kwExpired em,
           is_cancelled := kwCancelled em,
           is_deleted := kwDeleted em },
         some (env.shareCode, rc))

/-! ## Share tree listing: `list_share_files` and the season heuristic
(lines 486-639) -/

/-- Digit-string to number, as Python `int()` on a run of ASCII digits. -/
def digitsToNat (cs : List Char) : Nat :=
  cs.foldl (fun acc c => acc * 10 + (c.toNat - '0'.toNat)) 0

/-- Leftmost match of the regex `[Ss]eason\s*(\d+)` (pattern 1 of
`_should_skip_season_dir`): scan start positions left to right; at a
position the pattern matches when `S`/`s` is followed by `eason`, optional
whitespace, then at least one digit, the group being the maximal digit run
(shorter whitespace cannot rescue a failed match, digits are not
whitespace). -/
def matchSeasonWord : List Char → Option Nat
  | [] => none
  | c :: rest =>
    if (c = 'S' ∨ c = 's') ∧ rest.take 5 = ['e', 'a', 's', 'o', 'n'] ∧
        ((rest.drop 5).dropWhile Char.isWhitespace).takeWhile Char.isDigit ≠ [] then
      some (digitsToNat (((rest.drop 5).dropWhile Char.isWhitespace).takeWhile Char.isDigit))
    else matchSeasonWord rest

/-- Leftmost match of `[Ss](\d+)` (pattern 2). -/
def matchSDigits : List Char → Option Nat
  | [] => none
  | c :: rest =>
    if (c = 'S' ∨ c = 's') ∧ rest.takeWhile Char.isDigit ≠ [] then
      some (digitsToNat (rest.takeWhile Char.isDigit))
    else matchSDigits rest

/-- Leftmost match of `第(\d+)季` (pattern 3): after `第`, a maximal
nonempty digit run immediately followed by `季` (fewer digits leave a digit
where `季` must stand, so maximality is faithful to backtracking). -/
def matchDigitJi : List Char → Option Nat
  | [] => none
  | c :: rest =>
    if c = '第' ∧ rest.takeWhile Char.isDigit ≠ [] ∧
        (rest.dropWhile Char.isDigit).head? = some '季' then
      some (digitsToNat (rest.takeWhile Char.isDigit))
    else matchDigitJi rest

/-- The Chinese-numeral character class of pattern 4. -/
def isCnNum (c : Char) : Bool :=
  c = '一' || c = '二' || c = '三' || c = '四' || c = '五' ||
  c = '六' || c = '七' || c = '八' || c = '九' || c = '十'

/-- Leftmost match of `第([一二三四五六七八九十]+)季` (pattern 4),
returning the matched group. -/
def matchCnJi : List Char → Option (List Char)
  | [] => none
  | c :: rest =>
    if c = '第' ∧ rest.takeWhile isCnNum ≠ [] ∧
        (rest.dropWhile isCnNum).head? = some '季' then
      some (rest.takeWhile isCnNum)
    else matchCnJi rest

/-- `cn_num_map` (lines 615-616): value of a single numeral character. -/
def cnNumVal : Char → Option Nat
  | '一' => some 1
  | '二' => some 2
  | '三' => some 3
  | '四' => some 4
  | '五' => some 5
  | '六' => some 6
  | '七' => some 7
  | '八' => some 8
  | '九' => some 9
  | '十' => some 10
  | _ => none

/-- `season_str in cn_num_map`: the map's keys are single characters, so a
multi-character group is not a key (and `int()` on it raises, making the
loop `continue` past the last pattern to `return False`). -/
def cnLookup : List Char → Option Nat
  | [c] => cnNumVal c
  | _ => none

/--
`P115ClientManager._should_skip_season_dir(dir_name, target_season)`
(lines 596-639): try the four patterns in order; the first match decides —
`True` iff its season differs from the target.  A pattern-4 group that is
not a `cn_num_map` key falls through (`continue` on `int()` failure) to
`return False`.
-/
def should_skip_season_dir (dirName : String) (targetSeason : Nat) : Bool :=
  match matchSeasonWord dirName.data with
  | some n => n ≠ targetSeason
  | none =>
    match matchSDigits dirName.data with
    | some n => n ≠ targetSeason
    | none =>
      match matchDigitJi dirName.data with
      | some n => n ≠ targetSeason
      | none =>
        match matchCnJi dirName.data with
        | some grp =>
          match cnLookup grp with
          | some n => n ≠ targetSeason
          | none => false
        | none => false

/-- A raw item yielded by `share_iterdir` with the fields read on lines
550-557 (`id` as the integer the recursion uses via `int(item["id"])`;
`file_info["id"]` is its decimal string). -/
structure RawItem where
  id : Nat
  name : String
  size : Nat
  is_dir : Bool
  sha1 : String
  pick_code : String

/-- A node of the returned listing: the item's `file_info` dict plus the
`children` key, present (`some`) exactly when the source recursed into the
directory. -/
inductive FTree where
  | node : RawItem → Option (List FTree) → FTree

/-- Environment of a share-tree listing: client presence, the
`extract_share_info` output, and `listing cid` = the sequence of items
`share_iterdir` yields for directory `cid` (a remote error mid-iteration
simply truncates this sequence — the `except` on line 591 returns what was
gathered, so truncation is already covered by quantifying over listings). -/
structure ShareEnv where
  hasClient : Bool
  shareCode : String
  receiveCode : String
  listing : Nat → List RawItem

mutual
/-- `_list_share_files_recursive` (lines 522-594) at remaining depth
budget `r` (`r = max_depth + 1 - depth`, so `r = 0` is the
`depth > max_depth` early return).  Returns the nodes and the list of
directory ids for which a `share_iterdir` call was issued, in call order. -/
def listRecAux (env : ShareEnv) (ts : Option Nat) : Nat → Nat → List FTree × List Nat
  | 0, _ => ([], [])
  | r + 1, cid =>
    let p := listItems env ts r (env.listing cid)
    (p.1, cid :: p.2)

/-- The `for item in iterator` body (lines 549-589): `r` is the remaining
budget below the current node (`r = max_depth - depth`), so `0 < r` is the
`depth < max_depth` recursion guard; a skipped season directory is
recorded without a `children` key and without any remote call. -/
def listItems (env : ShareEnv) (ts : Option Nat) : Nat → List RawItem → List FTree × List Nat
  | _, [] => ([], [])
  | r, item :: rest =>
    let nodeCalls : FTree × List Nat :=
      if item.is_dir ∧ 0 < r then
        match ts with
        | some t =>
          if should_skip_season_dir item.name t then (FTree.node item none, [])
          else
            let q := listRecAux env ts r item.id
            (FTree.node item (some q.1), q.2)
        | none =>
          let q := listRecAux env ts r item.id
          (FTree.node item (some q.1), q.2)
      else (FTree.node item none, [])
    let p := listItems env ts r rest
    (nodeCalls.1 :: p.1, nodeCalls.2 ++ p.2)
end

/-- `P115ClientManager.list_share_files` (lines 486-520): guards, then the
recursion entered at `depth = 1`, i.e. remaining budget `max_depth`. -/
def list_share_files (env : ShareEnv) (cid : Nat) (maxDepth : Nat) (ts : Option Nat) :
    List FTree × List Nat :=
  if ¬env.hasClient then ([], [])
  else if env.shareCode = "" ∨ env.receiveCode = "" then ([], [])
  else listRecAux env ts maxDepth cid

/-! ## Single and whole-share transfer (lines 641-715) -/

/-- `P115ClientManager.transfer_share` (lines 641-675): guards, destination
resolution through `get_pid_by_path(save_path, mkdir=True)`, then
`_do_transfer` with `file_id="0"` and the default retry budget; `tenv` is
that call's per-attempt remote outcome. -/
def transfer_share (penv : PidEnv) (shareCode receiveCode : String) (savePath : String)
    (tenv : Nat → Except String TResp) : Bool :=
  if ¬penv.hasClient then false
  else if shareCode = "" ∨ receiveCode = "" then false
  else if (get_pid_by_path penv savePath true).1 = -1 then false
  else (do_transfer tenv DEFAULT_MAX_RETRIES).1

/-- `P115ClientManager.transfer_file` (lines 677-715): identical guards and
destination resolution, then a single-file `_do_transfer`. -/
def transfer_file (penv : PidEnv) (shareCode receiveCode : String) (fileId : String)
    (savePath : String) (tenv : Nat → Except String TResp) : Bool :=
  if ¬penv.hasClient then false
  else if shareCode = "" ∨ receiveCode = "" then false
  else if (get_pid_by_path penv savePath true).1 = -1 then false
  else (do_transfer tenv DEFAULT_MAX_RETRIES).1

/-! ## Concrete environments used by witnesses and counterexamples -/

/-- A manager whose `P115Client` construction failed (`self.client = None`). -/
def noClientEnv : PidEnv where
  hasClient := false
  cacheGet := fun _ => none
  dirGetid := fun _ => .ok 0
  makedirs := fun _ _ => .error "offline"

/-- A configured manager whose path cache resolves everything to id 5. -/
def okPidEnv : PidEnv where
  hasClient := true
  cacheGet := fun _ => some 5
  dirGetid := fun _ => .ok 7
  makedirs := fun _ _ => .ok { state := true, cid := 9, errno := none, error := "" }

/-- A remote that always answers the rate-limit error code 990001. -/
def rlEnv : Nat → Except String TResp := fun _ =>
  .ok { state := false, error := some "限流", errno := some 990001, errcode := none }

/-- A remote that always answers a permanent failure (errno 4100008). -/
def permFailEnv : Nat → Except String TResp := fun _ =>
  .ok { state := false, error := some "没有权限", errno := some 4100008, errcode := none }

/-- A remote whose failure message says the file already exists. -/
def dupEnv : Nat → Except String TResp := fun _ =>
  .ok { state := false, error := some "该文件名已存在", errno := some 20004, errcode := none }

/-! ## Claim theorems -/

/-- C10: when no remote client is configured, `get_pid_by_path` returns the
sentinel failure value `-1` (with zero remote calls and no exception) for
every input path, including the root paths, and for both values of the
`mkdir` flag — the client-presence check precedes path normalization and
the root shortcut. -/
theorem c10_no_client_sentinel (env : PidEnv) (path : String) (mkdir : Bool)
    (h : env.hasClient = false) :
    get_pid_by_pathE env path mkdir = .ok (-1, 0) := by
  simp [get_pid_by_pathE, h]

/-- C10 witness: the sentinel on the root path `""` and on `/a/b` of an
unconfigured manager. -/
theorem c10_witness :
    noClientEnv.hasClient = false ∧
    get_pid_by_pathE noClientEnv "" true = .ok (-1, 0) ∧
    get_pid_by_pathE noClientEnv "/a/b" false = .ok (-1, 0) :=
  ⟨rfl, c10_no_client_sentinel noClientEnv "" true rfl,
    c10_no_client_sentinel noClientEnv "/a/b" false rfl⟩

/-- C5 counterexample: resolving the root path `""` does NOT always yield
ID 0 — with no client configured it yields the sentinel `-1` (the claim's
"always" fails; the client-presence check runs first). -/
theorem c5_counterexample :
    get_pid_by_pathE noClientEnv "" true = .ok (-1, 0) ∧ (-1 : Int) ≠ 0 := by
  exact ⟨rfl, by decide⟩

/-- C5 (amended): with a configured client, resolving any of `""`, `"/"`,
a lone backslash or a double backslash (all of which normalize to the
root) yields directory ID 0 with zero remote API calls, for both values of
the `mkdir` flag. -/
theorem c5_root_resolves_to_zero (env : PidEnv) (mkdir : Bool)
    (h : env.hasClient = true) :
    get_pid_by_pathE env "" mkdir = .ok (0, 0) ∧
    get_pid_by_pathE env "/" mkdir = .ok (0, 0) ∧
    get_pid_by_pathE env "\\" mkdir = .ok (0, 0) ∧
    get_pid_by_pathE env "\\\\" mkdir = .ok (0, 0) := by
  refine ⟨?_, ?_, ?_, ?_⟩ <;> (rw [get_pid_by_pathE, h]; rfl)

/-- C5 witness: the amended claim at a concrete configured manager. -/
theorem c5_witness :
    okPidEnv.hasClient = true ∧
    get_pid_by_pathE okPidEnv "" true = .ok (0, 0) ∧
    get_pid_by_pathE okPidEnv "/" false = .ok (0, 0) :=
  ⟨rfl, (c5_root_resolves_to_zero okPidEnv true rfl).1,
    (c5_root_resolves_to_zero okPidEnv false rfl).2.1⟩

/-- C2 counterexample: `transfer_files_batch` is a public method that can
raise — with a configured client, a parsable share URL, a resolvable
destination, a non-empty id list and `batch_size = 0`, the computation
`(len(file_ids) + batch_size - 1) // batch_size` at line 759 raises
`ZeroDivisionError`, so "no public operation ever raises, for every
input" is false. -/
theorem c2_counterexample :
    (transfer_files_batchE okPidEnv "sc" "rc" ["f1"] "/tv" 0 []).isOk = false := by
  rfl

/-- C2 (amended): the cited public operations never raise provided the
batch size is positive (as its default 20 is): `get_pid_by_path` returns a
plain value for every input and environment, and `transfer_files_batch`
does so whenever `batch_size > 0`; every remote exception is caught at its
call site. -/
theorem c2_no_raise :
    (∀ (env : PidEnv) (path : String) (mkdir : Bool),
       (get_pid_by_pathE env path mkdir).isOk = true) ∧
    (∀ (penv : PidEnv) (sc rc : String) (fids : List String) (sp : String)
       (bs : Nat) (res : List Bool), 0 < bs →
       (transfer_files_batchE penv sc rc fids sp bs res).isOk = true) := by
  constructor
  · exact get_pid_by_pathE_isOk
  · intro penv sc rc fids sp bs res hbs
    simp only [transfer_files_batchE]
    split_ifs with h1 h2 h3 h4 h5
    all_goals first | rfl | omega

/-- C2 witness: both parts of the amended claim at concrete inputs. -/
theorem c2_witness :
    (get_pid_by_pathE okPidEnv "/a/b" true).isOk = true ∧ 0 < 2 ∧
    (transfer_files_batchE okPidEnv "sc" "rc" ["f1", "f2", "f3"] "/tv" 2
      [true, false, true, false]).isOk = true :=
  ⟨c2_no_raise.1 okPidEnv "/a/b" true, by decide,
    c2_no_raise.2 okPidEnv "sc" "rc" ["f1", "f2", "f3"] "/tv" 2
      [true, false, true, false] (by decide)⟩

lemma transfer_files_batch_cases (penv : PidEnv) (sc rc : String) (fileIds : List String)
    (sp : String) (bs : Nat) (res : List Bool) (hbs : 0 < bs) :
    transfer_files_batch penv sc rc fileIds sp bs res = ([], fileIds) ∨
    (fileIds = [] ∧ transfer_files_batch penv sc rc fileIds sp bs res = ([], [])) ∨
    transfer_files_batch penv sc rc fileIds sp bs res = runBatches res (chunksOf bs fileIds) := by
  simp only [transfer_files_batch, transfer_files_batchE]
  split_ifs with h1 h2 h3 h4 h5
  all_goals first
    | (left; rfl)
    | (right; left; exact ⟨‹fileIds = []›, rfl⟩)
    | (right; right; rfl)
    | omega

/--
C1 counterexample: with a duplicated input ID the two returned sequences
do not partition the input ID set — for input `["a", "a"]` (one chunk of
two), a failed chunk-level call whose per-item fallback succeeds for the
first copy and fails for the second yields `(["a"], ["a"])`: the ID `"a"`
appears in BOTH sequences, not in exactly one.
-/
theorem c1_counterexample :
    transfer_files_batch okPidEnv "sc" "rc" ["a", "a"] "/tv" 2 [false, true, false]
      = (["a"], ["a"]) ∧
    "a" ∈ (transfer_files_batch okPidEnv "sc" "rc" ["a", "a"] "/tv" 2 [false, true, false]).1 ∧
    "a" ∈ (transfer_files_batch okPidEnv "sc" "rc" ["a", "a"] "/tv" 2 [false, true, false]).2 := by
  refine ⟨rfl, ?_, ?_⟩ <;> decide

/--
C1 (amended): for every input list, positive batch size and every outcome
(chunk-level success, chunk-level failure with per-item fallback,
unconfigured client, unparsable share URL, destination-resolution
failure), `succeededIds ++ failedIds` is a permutation of the input list —
so for an input list without duplicate IDs the two sequences partition the
input set: each returned sequence is duplicate-free, no ID is omitted, and
no ID appears in both.
-/
theorem c1_batch_partition (penv : PidEnv) (sc rc : String) (fileIds : List String)
    (sp : String) (bs : Nat) (res : List Bool) (hbs : 0 < bs) :
    List.Perm ((transfer_files_batch penv sc rc fileIds sp bs res).1 ++
               (transfer_files_batch penv sc rc fileIds sp bs res).2) fileIds ∧
    (fileIds.Nodup →
      (transfer_files_batch penv sc rc fileIds sp bs res).1.Nodup ∧
      (transfer_files_batch penv sc rc fileIds sp bs res).2.Nodup ∧
      ∀ x, x ∈ (transfer_files_batch penv sc rc fileIds sp bs res).1 →
        x ∉ (transfer_files_batch penv sc rc fileIds sp bs res).2) := by
  have hperm : List.Perm ((transfer_files_batch penv sc rc fileIds sp bs res).1 ++
      (transfer_files_batch penv sc rc fileIds sp bs res).2) fileIds := by
    rcases transfer_files_batch_cases penv sc rc fileIds sp bs res hbs with h | ⟨hnil, h⟩ | h
    · rw [h]; simp
    · rw [h, hnil]; simp
    · rw [h]
      have hs := (runBatches_spec (chunksOf bs fileIds) res).1
      rwa [chunksOf_flatten bs hbs] at hs
  refine ⟨hperm, fun hnd => ?_⟩
  have hnodup : ((transfer_files_batch penv sc rc fileIds sp bs res).1 ++
      (transfer_files_batch penv sc rc fileIds sp bs res).2).Nodup :=
    (hperm.nodup_iff).mpr hnd
  rw [List.nodup_append] at hnodup
  exact ⟨hnodup.1, hnodup.2.1, fun x hx hx2 => hnodup.2.2 hx hx2⟩

/-- C1 witness: the amended claim at a concrete run (one chunk succeeds,
one falls back per-item). -/
theorem c1_witness :
    0 < 2 ∧
    List.Perm ((transfer_files_batch okPidEnv "sc" "rc" ["a", "b", "c"] "/tv" 2
        [true, false, true, false]).1 ++
      (transfer_files_batch okPidEnv "sc" "rc" ["a", "b", "c"] "/tv" 2
        [true, false, true, false]).2) ["a", "b", "c"] ∧
    (["a", "b", "c"] : List String).Nodup :=
  ⟨by decide,
    (c1_batch_partition okPidEnv "sc" "rc" ["a", "b", "c"] "/tv" 2
      [true, false, true, false] (by decide)).1,
    by decide⟩

/--
C8: the two sequences returned by `transfer_files_batch` each preserve the
relative order of the input file-ID list — each is a subsequence
(`List.Sublist`) of the input — because chunks are processed in input
order and the per-item fallback iterates each chunk in order.
-/
theorem c8_batch_preserves_order (penv : PidEnv) (sc rc : String) (fileIds : List String)
    (sp : String) (bs : Nat) (res : List Bool) (hbs : 0 < bs) :
    List.Sublist (transfer_files_batch penv sc rc fileIds sp bs res).1 fileIds ∧
    List.Sublist (transfer_files_batch penv sc rc fileIds sp bs res).2 fileIds := by
  rcases transfer_files_batch_cases penv sc rc fileIds sp bs res hbs with h | ⟨hnil, h⟩ | h
  · rw [h]; exact ⟨List.nil_sublist _, List.Sublist.refl _⟩
  · rw [h, hnil]; exact ⟨List.Sublist.refl _, List.Sublist.refl _⟩
  · rw [h]
    have hs := runBatches_spec (chunksOf bs fileIds) res
    rw [chunksOf_flatten bs hbs] at hs
    exact ⟨hs.2.1, hs.2.2⟩

/-- C8 witness: order preservation at a concrete mixed-outcome run. -/
theorem c8_witness :
    0 < 2 ∧
    List.Sublist (transfer_files_batch okPidEnv "sc" "rc" ["a", "b", "c"] "/tv" 2
      [false, true, false, true]).1 ["a", "b", "c"] ∧
    List.Sublist (transfer_files_batch okPidEnv "sc" "rc" ["a", "b", "c"] "/tv" 2
      [false, true, false, true]).2 ["a", "b", "c"] :=
  ⟨by decide,
    (c8_batch_preserves_order okPidEnv "sc" "rc" ["a", "b", "c"] "/tv" 2
      [false, true, false, true] (by decide)).1,
    (c8_batch_preserves_order okPidEnv "sc" "rc" ["a", "b", "c"] "/tv" 2
      [false, true, false, true] (by decide)).2⟩

/--
C3 counterexample: the claimed "default of 3 attempts" is false — with the
default `DEFAULT_MAX_RETRIES = 3` the loop `for attempt in
range(max_retries + 1)` performs up to 4 attempts: against a remote that
always answers rate-limit code 990001, `_do_transfer` issues 4 API calls
(with back-off sleeps 2 s, 4 s, 6 s between them), not 3.
-/
theorem c3_counterexample :
    (do_transfer rlEnv DEFAULT_MAX_RETRIES).1 = false ∧
    (do_transfer rlEnv DEFAULT_MAX_RETRIES).2.1 = 4 ∧
    (do_transfer rlEnv DEFAULT_MAX_RETRIES).2.2.length = 3 ∧
    (4 : Nat) ≠ 3 := by
  refine ⟨?_, ?_, ?_, ?_⟩ <;> decide

/--
C3 (amended): a single transfer attempt via `_do_transfer` uses bounded
retry with a default of 3 retries — up to 4 attempts in total (at most
`max_retries + 1` API calls) — and linearly increasing back-off delay per
attempt (the i-th sleep is `2*(i+1)` seconds after a rate-limited attempt
or `1.5*(i+1)` seconds after an exception); within each attempt a response
carrying one of the fixed rate-limit error codes (990001, 990002, 990009)
triggers a retry if attempts remain, while any other failure response
makes the call return false immediately, after exactly one API call, with
no back-off sleeps.
-/
theorem c3_do_transfer_retry_policy :
    DEFAULT_MAX_RETRIES = 3 ∧
    (∀ env, (do_transfer env DEFAULT_MAX_RETRIES).2.1 ≤ 4) ∧
    (∀ env mr, (do_transfer env mr).2.1 ≤ mr + 1) ∧
    (∀ env mr i, i < (do_transfer env mr).2.2.length →
       (do_transfer env mr).2.2.getD i 0 = (i + 1 : ℚ) * 2 ∨
       (do_transfer env mr).2.2.getD i 0 = (i + 1 : ℚ) * (3 / 2)) ∧
    (∀ env mr (resp : TResp), env 0 = .ok resp → resp.state = false →
       strContains (resp.error.getD "未知错误") "重复" = false →
       strContains (resp.error.getD "未知错误") "已存在" = false →
       resp.errno.getD (resp.errcode.getD 0) ∉ rateLimitCodes →
       do_transfer env mr = (false, 1, [])) ∧
    (∀ env mr (resp : TResp), env 0 = .ok resp → resp.state = false →
       strContains (resp.error.getD "未知错误") "重复" = false →
       strContains (resp.error.getD "未知错误") "已存在" = false →
       resp.errno.getD (resp.errcode.getD 0) ∈ rateLimitCodes → 0 < mr →
       2 ≤ (do_transfer env mr).2.1) := by
  refine ⟨rfl, ?_, ?_, ?_, ?_, ?_⟩
  · intro env; exact doTransferAux_calls_le env DEFAULT_MAX_RETRIES 4 0
  · intro env mr; exact doTransferAux_calls_le env mr (mr + 1) 0
  · intro env mr i hi
    simpa using doTransferAux_delays env mr (mr + 1) 0 i hi
  · intro env mr resp h hs hd1 hd2 hrl
    simp only [do_transfer, doTransferAux, h, hs]
    simp [hd1, hd2, hrl]
  · intro env mr resp h hs hd1 hd2 hrl hmr
    simp only [do_transfer, doTransferAux, h, hs]
    simp only [hd1, hd2, Bool.or_self, Bool.false_eq_true, if_false]
    have hcond : resp.errno.getD (resp.errcode.getD 0) ∈ rateLimitCodes ∧ 0 < mr := ⟨hrl, hmr⟩
    simp only [hcond, and_self, if_true, Nat.zero_add, zero_add]
    have hpos := doTransferAux_calls_pos env mr mr 1 hmr
    omega

/-- C3 witness: the amended claim exercised at concrete environments — a
permanent failure returns false after one call, a rate-limited first
response is retried. -/
theorem c3_witness :
    do_transfer permFailEnv 3 = (false, 1, []) ∧ 2 ≤ (do_transfer rlEnv 3).2.1 :=
  ⟨c3_do_transfer_retry_policy.2.2.2.2.1 permFailEnv 3
      { state := false, error := some "没有权限", errno := some 4100008, errcode := none }
      rfl rfl (by decide) (by decide) (by decide),
    c3_do_transfer_retry_policy.2.2.2.2.2 rlEnv 3
      { state := false, error := some "限流", errno := some 990001, errcode := none }
      rfl rfl (by decide) (by decide) (by decide) (by decide)⟩

/--
C4: for every transfer call, a failure response whose error message
contains "重复" or "已存在" (the Chinese for "already exists" — the two
literals the source tests) is reported as success, as an idempotent no-op:
`_do_transfer` returns true after that single API call, with no retries.
-/
theorem c4_duplicate_reported_as_success (env : Nat → Except String TResp) (mr : Nat)
    (resp : TResp) (h : env 0 = .ok resp) (hs : resp.state = false)
    (hdup : strContains (resp.error.getD "未知错误") "重复" = true ∨
            strContains (resp.error.getD "未知错误") "已存在" = true) :
    do_transfer env mr = (true, 1, []) := by
  simp only [do_transfer, doTransferAux, h, hs]
  rcases hdup with hd | hd <;> simp [hd]

/-- C4 witness: a concrete "file already exists" failure response is
reported as success. -/
theorem c4_witness :
    do_transfer dupEnv 3 = (true, 1, []) :=
  c4_duplicate_reported_as_success dupEnv 3
    { state := false, error := some "该文件名已存在", errno := some 20004, errcode := none }
    rfl rfl (Or.inr (by decide))

/--
C6: in the share-tree listing with a target season supplied, a
subdirectory whose name matches one of the fixed season patterns with a
season number different from the target (e.g. target season 2 and a
directory named "Season 1") is recorded in the returned result as a node
without children, and no remote listing call is issued for its contents:
the item contributes a childless node and adds no directory id to the list
of issued `share_iterdir` calls.
-/
theorem c6_season_pruning :
    should_skip_season_dir "Season 1" 2 = true ∧
    ∀ (env : ShareEnv) (t r : Nat) (item : RawItem) (rest : List RawItem),
      item.is_dir = true → should_skip_season_dir item.name t = true →
      listItems env (some t) (r + 1) (item :: rest) =
        (FTree.node item none :: (listItems env (some t) (r + 1) rest).1,
         (listItems env (some t) (r + 1) rest).2) := by
  constructor
  · decide
  · intro env t r item rest hdir hskip
    simp only [listItems]
    simp [hdir, hskip]

/-- A directory item named "Season 1" with remote id 42. -/
def seasonItem : RawItem where
  id := 42
  name := "Season 1"
  size := 0
  is_dir := true
  sha1 := ""
  pick_code := ""

/-- A configured share environment with empty listings. -/
def shareEnv0 : ShareEnv where
  hasClient := true
  shareCode := "sc"
  receiveCode := "rc"
  listing := fun _ => []

/-- C6 witness: with target season 2, the "Season 1" directory is returned
as a childless node and no listing call is issued for its contents. -/
theorem c6_witness :
    seasonItem.is_dir = true ∧ should_skip_season_dir seasonItem.name 2 = true ∧
    listItems shareEnv0 (some 2) 3 [seasonItem] = ([FTree.node seasonItem none], []) := by
  refine ⟨rfl, by decide, ?_⟩
  have h := c6_season_pruning.2 shareEnv0 2 2 seasonItem [] rfl (by decide)
  simpa [listItems] using h

/-- A probe environment whose snapshot message carries two reason
keywords at once. -/
def badSnapEnv : SnapEnv where
  hasClient := true
  shareCode := "abc"
  receiveCode := "r"
  snap := fun _ _ => .ok
    { state := false, count := none, listLen := 0,
      shareTitle := "", shareState := "", createTime := "", expireTime := "", userName := "",
      errno := some 4100008, errcode := none, error := some "分享已过期并被取消", message := none }

/--
C7 counterexample: the reason flags of `check_share_status` are not
mutually exclusive — for a failure response whose error message contains
both "过期" (expired) and "取消" (cancelled), the returned status has
`is_valid = false` but BOTH `is_expired` and `is_cancelled` true, so "at
most one of the reason flags is true" is false.
-/
theorem c7_counterexample :
    (check_share_status badSnapEnv).1.is_valid = false ∧
    (check_share_status badSnapEnv).1.is_expired = true ∧
    (check_share_status badSnapEnv).1.is_cancelled = true := by
  refine ⟨?_, ?_, ?_⟩ <;> decide

lemma check_share_status_flags (env : SnapEnv) :
    ((check_share_status env).1.is_expired = kwExpired (check_share_status env).1.error_message ∧
     (check_share_status env).1.is_cancelled = kwCancelled (check_share_status env).1.error_message ∧
     (check_share_status env).1.is_deleted = kwDeleted (check_share_status env).1.error_message) ∨
    ((check_share_status env).1.is_expired = false ∧
     (check_share_status env).1.is_cancelled = false ∧
     (check_share_status env).1.is_deleted = false) := by
  simp only [check_share_status]
  by_cases h1 : ¬env.hasClient
  · simp [h1]
  · simp only [h1, if_false]
    by_cases h2 : env.shareCode = ""
    · simp [h2]
    · simp only [h2, if_false]
      cases hs : env.snap env.shareCode (if env.receiveCode = "" then "" else env.receiveCode) with
      | error e => simp
      | ok resp =>
        by_cases hst : resp.state
        · simp [hst]
        · simp [hst]

/--
C7 (amended): the reason flags are set by three independent keyword tests
on the error message, so they are pairwise exclusive only when the message
matches at most one keyword family (过期/expired, 取消/cancel,
删除/不存在/delete): under that hypothesis, for every returned status with
`is_valid = false` at most one of `is_expired`, `is_cancelled`,
`is_deleted` is true (and all remain false with an empty error message).
-/
theorem c7_reason_flags_exclusive (env : SnapEnv)
    (hv : (check_share_status env).1.is_valid = false)
    (hec : ¬(kwExpired (check_share_status env).1.error_message = true ∧
             kwCancelled (check_share_status env).1.error_message = true))
    (hed : ¬(kwExpired (check_share_status env).1.error_message = true ∧
             kwDeleted (check_share_status env).1.error_message = true))
    (hcd : ¬(kwCancelled (check_share_status env).1.error_message = true ∧
             kwDeleted (check_share_status env).1.error_message = true)) :
    ¬((check_share_status env).1.is_expired = true ∧
      (check_share_status env).1.is_cancelled = true) ∧
    ¬((check_share_status env).1.is_expired = true ∧
      (check_share_status env).1.is_deleted = true) ∧
    ¬((check_share_status env).1.is_cancelled = true ∧
      (check_share_status env).1.is_deleted = true) := by
  rcases check_share_status_flags env with ⟨he, hc, hd⟩ | ⟨he, hc, hd⟩
  · rw [he, hc, hd]
    exact ⟨hec, hed, hcd⟩
  · rw [he, hc, hd]
    simp

/-- A probe environment whose snapshot reports an expired share. -/
def expiredSnapEnv : SnapEnv where
  hasClient := true
  shareCode := "abc"
  receiveCode := ""
  snap := fun _ _ => .ok
    { state := false, count := none, listLen := 0,
      shareTitle := "", shareState := "", createTime := "", expireTime := "", userName := "",
      errno := some 4100026, errcode := none, error := some "分享已过期", message := none }

/-- C7 witness: for a message matching only the expiry family, the flags
are pairwise exclusive. -/
theorem c7_witness :
    (check_share_status expiredSnapEnv).1.is_valid = false ∧
    (¬((check_share_status expiredSnapEnv).1.is_expired = true ∧
       (check_share_status expiredSnapEnv).1.is_cancelled = true) ∧
     ¬((check_share_status expiredSnapEnv).1.is_expired = true ∧
       (check_share_status expiredSnapEnv).1.is_deleted = true) ∧
     ¬((check_share_status expiredSnapEnv).1.is_cancelled = true ∧
       (check_share_status expiredSnapEnv).1.is_deleted = true)) :=
  ⟨by decide,
    c7_reason_flags_exclusive expiredSnapEnv (by decide) (by decide) (by decide) (by decide)⟩

/--
C9: `check_share_status` requires only a non-empty shareCode — whenever a
client is configured and the shareCode is non-empty it issues the probe,
passing `receive_code or ""` (so an empty receiveCode is substituted by
`""`), for every snap outcome — whereas `list_share_files`,
`transfer_share`, `transfer_file` and `transfer_files_batch` require both
codes to be non-empty and return their failure value (empty listing with
no remote calls / `false` / all-input-IDs-failed) whenever either is
empty.
-/
theorem c9_share_code_requirements :
    (∀ env : SnapEnv, env.hasClient = true → env.shareCode ≠ "" →
       (check_share_status env).2 =
         some (env.shareCode, if env.receiveCode = "" then "" else env.receiveCode)) ∧
    (∀ (env : ShareEnv) (cid maxDepth : Nat) (ts : Option Nat),
       env.shareCode = "" ∨ env.receiveCode = "" →
       list_share_files env cid maxDepth ts = ([], [])) ∧
    (∀ (penv : PidEnv) (sc rc sp : String) (tenv : Nat → Except String TResp),
       sc = "" ∨ rc = "" → transfer_share penv sc rc sp tenv = false) ∧
    (∀ (penv : PidEnv) (sc rc fid sp : String) (tenv : Nat → Except String TResp),
       sc = "" ∨ rc = "" → transfer_file penv sc rc fid sp tenv = false) ∧
    (∀ (penv : PidEnv) (sc rc : String) (fids : List String) (sp : String)
       (bs : Nat) (res : List Bool),
       sc = "" ∨ rc = "" →
       transfer_files_batch penv sc rc fids sp bs res = ([], fids)) := by
  refine ⟨?_, ?_, ?_, ?_, ?_⟩
  · intro env hcl hsc
    simp only [check_share_status, hcl]
    simp only [Bool.not_true, Bool.false_eq_true, if_false, hsc]
    cases hs : env.snap env.shareCode (if env.receiveCode = "" then "" else env.receiveCode) with
    | error e => simp
    | ok resp =>
      by_cases hst : resp.state
      · simp [hst]
      · simp [hst]
  · intro env cid maxDepth ts hcodes
    simp only [list_share_files, hcodes]
    split_ifs with h1
    · rfl
    · rfl
  · intro penv sc rc sp tenv hcodes
    simp only [transfer_share, hcodes]
    split_ifs with h1
    · rfl
    · rfl
  · intro penv sc rc fid sp tenv hcodes
    simp only [transfer_file, hcodes]
    split_ifs with h1
    · rfl
    · rfl
  · intro penv sc rc fids sp bs res hcodes
    simp only [transfer_files_batch, transfer_files_batchE]
    split_ifs with h1 h2 h3 h4 h5
    all_goals first
      | rfl
      | (rw [‹fids = []›])
      | (exact absurd hcodes ‹¬(sc = "" ∨ rc = "")›)

/-- A share-tree environment whose receive code failed to parse. -/
def emptyRcShareEnv : ShareEnv where
  hasClient := true
  shareCode := "sc"
  receiveCode := ""
  listing := fun _ => [seasonItem]

/-- C9 witness: all five parts at concrete inputs — the status probe is
issued with an empty receive code substituted by `""`, while the listing
and the three transfer operations short-circuit to their failure values. -/
theorem c9_witness :
    (check_share_status expiredSnapEnv).2 = some ("abc", "") ∧
    list_share_files emptyRcShareEnv 0 3 none = ([], []) ∧
    transfer_share okPidEnv "" "rc" "/tv" rlEnv = false ∧
    transfer_file okPidEnv "sc" "" "f1" "/tv" rlEnv = false ∧
    transfer_files_batch okPidEnv "" "" ["f1", "f2"] "/tv" 2 [] = ([], ["f1", "f2"]) :=
  ⟨by simpa using c9_share_code_requirements.1 expiredSnapEnv rfl (by decide),
    c9_share_code_requirements.2.1 emptyRcShareEnv 0 3 none (Or.inr rfl),
    c9_share_code_requirements.2.2.1 okPidEnv "" "rc" "/tv" rlEnv (Or.inl rfl),
    c9_share_code_requirements.2.2.2.1 okPidEnv "sc" "" "f1" "/tv" rlEnv (Or.inr rfl),
    c9_share_code_requirements.2.2.2.2 okPidEnv "" "" ["f1", "f2"] "/tv" 2 [] (Or.inl rfl)⟩

end P115
